import Mathlib

set_option autoImplicit false

/-!
Shallow embedding of the AmbiDream sleep-tracker core
(`tracker/models.py`, `tracker/tasks.py`, `tracker/google_calendar.py`).

Modelling conventions:
* Machine timestamps are `Int` seconds since the epoch; calendar dates are
  `Int` day numbers (`dateOfTs t = ⌊t / 86400⌋`, the epoch day of a
  timestamp; epoch day 0 is a Thursday, so `weekday d = (d + 3) % 7` with
  Monday = 0, matching Python's `date.weekday()`).
* Every Django `DecimalField` in this code is declared with
  `decimal_places=2`, so its values are exact multiples of 0.01; they are
  represented as `Int` counts of hundredths (centi-units): `750` stands for
  the decimal `7.50`.  Python's `round(x, 2)` and the quantization a
  2-decimal column applies on store are both round-half-to-even on the
  exact rational value, modelled by `roundHalfEvenFrac` on an integer
  fraction (the binary floating-point representation is not modelled).
* Nullable columns and Python `None` are `Option`; a Python run that raises
  an uncaught exception (e.g. a `NameError` from reading an unbound local)
  is `none` in an `Option`-valued run function.
* External collaborators are oracles passed as parameters: the notification
  dispatcher is a `Bool`-valued success function (`send_mail` returning a
  nonzero count is `true`), the per-user `profile.notification_enabled`
  and `profile.google_calendar_enabled` flags are functions of the user id,
  and the Google remote calendar is an explicit `Remote` event store plus a
  success flag per remote call.
-/

namespace AmbiDream

/-- Round half to even of the fraction `n / d` (for `d > 0`), mirroring
Python's banker's rounding `round` and `Decimal.quantize` on the exact
rational value. -/
def roundHalfEvenFrac (n d : Int) : Int :=
  let q := Int.fdiv n d
  let r := n - q * d
  if 2 * r < d then q
  else if d < 2 * r then q + 1
  else if q % 2 = 0 then q else q + 1

/-- The calendar date (epoch day number) of a timestamp, as used by the
Django `__date` lookup. -/
def dateOfTs (t : Int) : Int := Int.fdiv t 86400

/-- Python `date.weekday()` on an epoch day number: Monday = 0. -/
def weekday (d : Int) : Int := (d + 3) % 7

/-- `tracker/models.py` `SleepSession`: the fields the background tasks read
or write.  `quality_rating` is the ordinal 1–5 rating, `duration_hours` the
derived duration in centihours, and `synced_to_calendar` /
`calendar_event_id` track the remote calendar mapping. -/
structure SleepSession where
  user : Nat
  sleep_time : Option Int
  wake_time : Option Int
  quality_rating : Option Nat
  duration_hours : Option Int
  synced_to_calendar : Bool
  calendar_event_id : Option Nat
  deriving DecidableEq, Repr

/-- The date of a session's sleep start (the `sleep_time__date` lookup). -/
def sleepDate (s : SleepSession) : Option Int := s.sleep_time.map dateOfTs

/-- `SleepSession.save`: when both timestamps are present, recompute
`duration_hours = round((wake_time - sleep_time).total_seconds()/3600, 2)`
(in centihours: round-half-even of `100 * seconds / 3600`) before
persisting; with a missing timestamp the stored duration is untouched. -/
def SleepSession.save (s : SleepSession) : SleepSession :=
  match s.sleep_time, s.wake_time with
  | some st, some wt =>
      { s with duration_hours := some (roundHalfEvenFrac (100 * (wt - st)) 3600) }
  | _, _ => s

/-- `tracker/models.py` `SleepStatistics.period_type` choices. -/
inductive PeriodType
  | daily
  | weekly
  | monthly
  deriving DecidableEq, Repr

/-- `tracker/models.py` `SleepStatistics`: one aggregated row.  Decimal
metric columns are centi-units (`total_sleep_hours = 2200` is `22.00`). -/
structure SleepStatistics where
  user : Nat
  date : Int
  period_type : PeriodType
  total_sleep_hours : Int
  average_sleep_hours : Int
  average_quality : Option Int
  sessions_count : Nat
  goal_achievement_rate : Option Int
  deriving DecidableEq, Repr

/-- The `unique_together = ['user', 'date', 'period_type']` key of a row. -/
def rowKey (r : SleepStatistics) : Nat × Int × PeriodType :=
  (r.user, r.date, r.period_type)

/-- Does row `r` match the upsert key `(u, d, p)`? -/
def statKeyMatches (r : SleepStatistics) (u : Nat) (d : Int) (p : PeriodType) : Bool :=
  r.user == u && r.date == d && r.period_type == p

/-- The `defaults={...}` dictionary passed to
`SleepStatistics.objects.update_or_create` by the statistics tasks. -/
structure StatValues where
  total : Int
  avg : Int
  quality : Option Int
  count : Nat
  deriving DecidableEq, Repr

/-- Assign the `defaults` fields of an existing row, leaving the key fields
and `goal_achievement_rate` (absent from `defaults`) untouched. -/
def applyDefaults (r : SleepStatistics) (v : StatValues) : SleepStatistics :=
  { r with
    total_sleep_hours := v.total
    average_sleep_hours := v.avg
    average_quality := v.quality
    sessions_count := v.count }

/-- Django `update_or_create(user=u, date=d, period_type=p, defaults=v)` on
a row store: update the matching row if one exists, otherwise insert a new
row; an inserted row gets the model default `goal_achievement_rate = None`. -/
def updateOrCreate (store : List SleepStatistics) (u : Nat) (d : Int)
    (p : PeriodType) (v : StatValues) : List SleepStatistics :=
  if store.any (fun r => statKeyMatches r u d p) then
    store.map (fun r => if statKeyMatches r u d p then applyDefaults r v else r)
  else
    store ++ [{ user := u, date := d, period_type := p,
                total_sleep_hours := v.total, average_sleep_hours := v.avg,
                average_quality := v.quality, sessions_count := v.count,
                goal_achievement_rate := none }]

/-- The sessions of user `u` whose sleep start falls on date `d`
(`SleepSession.objects.filter(user=user, sleep_time__date=yesterday)`). -/
def sessionsForUserOnDate (sessions : List SleepSession) (u : Nat) (d : Int) :
    List SleepSession :=
  sessions.filter (fun s => s.user == u && sleepDate s == some d)

/-- The sessions of user `u` whose sleep start date lies in `[lo, hi]`
(the `sleep_time__date__gte/__lte` pair of the weekly task). -/
def sessionsForUserInRange (sessions : List SleepSession) (u : Nat) (lo hi : Int) :
    List SleepSession :=
  sessions.filter (fun s =>
    s.user == u &&
      match sleepDate s with
      | some x => decide (lo ≤ x) && decide (x ≤ hi)
      | none => false)

/-- `User.objects.filter(sleep_sessions__sleep_time__date=yesterday).distinct()`:
the users owning at least one session on date `d`, each listed once. -/
def usersWithSessionOn (allUsers : List Nat) (sessions : List SleepSession)
    (d : Int) : List Nat :=
  (allUsers.filter (fun u => !(sessionsForUserOnDate sessions u d).isEmpty)).dedup

/-- The users owning at least one session with sleep date in `[lo, hi]`,
each listed once (the weekly task's `.distinct()` user query). -/
def usersWithSessionInRange (allUsers : List Nat) (sessions : List SleepSession)
    (lo hi : Int) : List Nat :=
  (allUsers.filter (fun u => !(sessionsForUserInRange sessions u lo hi).isEmpty)).dedup

/-- The aggregation body shared verbatim by `calculate_daily_statistics` and
`calculate_weekly_statistics`:
`total_hours = sum(s.duration_hours or 0 for s in sessions)`,
`avg_hours = total_hours / sessions.count()`,
`avg_quality = sum(ratings)/len(ratings)` over the sessions with a non-null
rating, else `None`.  The two quotients are quantized to two decimal places
by the `DecimalField(decimal_places=2)` columns they are stored into. -/
def computeStatValues (ss : List SleepSession) : StatValues :=
  let total := (ss.map (fun s => s.duration_hours.getD 0)).sum
  let qualities : List Nat := ss.filterMap (fun s => s.quality_rating)
  { total := total
    avg := roundHalfEvenFrac total ss.length
    quality :=
      if qualities.isEmpty then none
      else some (roundHalfEvenFrac (100 * (qualities.sum : Int)) qualities.length)
    count := ss.length }

/-- The per-user loop shared by the two statistics tasks: for each user in
`users`, select that user's sessions, skip the user if the selection is
empty, otherwise upsert the row keyed `(user, d, p)`. -/
def runAggregation (users : List Nat) (sel : Nat → List SleepSession) (d : Int)
    (p : PeriodType) (store : List SleepStatistics) : List SleepStatistics :=
  users.foldl
    (fun st u =>
      if (sel u).isEmpty then st
      else updateOrCreate st u d p (computeStatValues (sel u)))
    store

/-- `tracker/tasks.py` `calculate_daily_statistics`: aggregate yesterday's
sessions (`yesterday = today - 1`) per owning user and upsert the row keyed
`(user, yesterday, 'daily')`. -/
def calculate_daily_statistics (allUsers : List Nat) (sessions : List SleepSession)
    (today : Int) (store : List SleepStatistics) : List SleepStatistics :=
  runAggregation (usersWithSessionOn allUsers sessions (today - 1))
    (fun u => sessionsForUserOnDate sessions u (today - 1)) (today - 1)
    PeriodType.daily store

/-- `tracker/tasks.py` `calculate_weekly_statistics`: aggregate this week's
sessions (`week_start = today - today.weekday()`, `week_end = week_start + 6`)
per owning user and upsert the row keyed `(user, week_start, 'weekly')`. -/
def calculate_weekly_statistics (allUsers : List Nat) (sessions : List SleepSession)
    (today : Int) (store : List SleepStatistics) : List SleepStatistics :=
  runAggregation
    (usersWithSessionInRange allUsers sessions (today - weekday today)
      (today - weekday today + 6))
    (fun u => sessionsForUserInRange sessions u (today - weekday today)
      (today - weekday today + 6))
    (today - weekday today) PeriodType.weekly store

/-- `tracker/models.py` `SleepReminder.reminder_type` choices. -/
inductive ReminderType
  | bedtime
  | wake
  | log
  deriving DecidableEq, Repr

/-- `tracker/models.py` `SleepReminder`; the `TimeField` trigger is split
into its hour and minute, which is all the tasks' filters consult. -/
structure SleepReminder where
  id : Nat
  user : Nat
  reminder_type : ReminderType
  reminder_hour : Nat
  reminder_minute : Nat
  is_active : Bool
  last_sent : Option Int
  deriving DecidableEq, Repr

/-- One minute-resolution scheduler tick: the wall-clock hour and minute of
`timezone.now().time()`, the timestamp stored into `last_sent`, and the
current date `timezone.now().date()`. -/
structure Tick where
  hour : Nat
  minute : Nat
  ts : Int
  date : Int
  deriving DecidableEq, Repr

/-- The reminder filter shared by the three reminder tasks: reminder type,
`is_active=True`, and the trigger's hour and minute equal to the tick's. -/
def reminderMatches (r : SleepReminder) (ty : ReminderType) (t : Tick) : Bool :=
  r.reminder_type == ty && r.is_active &&
    r.reminder_hour == t.hour && r.reminder_minute == t.minute

/-- Loop body of `send_bedtime_reminders`, written exactly as indented in
the source: `result = send(...)` sits under `if notification_enabled:`, but
the `if result:` block that sets `last_sent` does NOT — it re-reads the
`result` left over from an earlier iteration, and raises `NameError`
(modelled as the whole run being `none`) when no iteration has bound
`result` yet.  The accumulator `res` is the current binding of `result`.
Returns the updated reminder list and the list of reminders actually
dispatched (i.e. for which the notification send was invoked). -/
def bedtimeLoop (enabled : Nat → Bool) (sendOk : Nat → Bool) (t : Tick) :
    List SleepReminder → Option Bool →
    Option (List SleepReminder × List SleepReminder)
  | [], _ => some ([], [])
  | r :: rs, res =>
    if reminderMatches r ReminderType.bedtime t then
      let res' := if enabled r.user then some (sendOk r.id) else res
      match res' with
      | none => none
      | some b =>
        match bedtimeLoop enabled sendOk t rs res' with
        | none => none
        | some (rs', ds) =>
          some ((if b then { r with last_sent := some t.ts } else r) :: rs',
                (if enabled r.user then [r] else []) ++ ds)
    else
      match bedtimeLoop enabled sendOk t rs res with
      | none => none
      | some (rs', ds) => some (r :: rs', ds)

/-- `tracker/tasks.py` `send_bedtime_reminders` over a reminder table:
non-matching reminders pass through untouched; matching ones go through
`bedtimeLoop` with `result` initially unbound. -/
def send_bedtime_reminders (enabled : Nat → Bool) (sendOk : Nat → Bool)
    (t : Tick) (rs : List SleepReminder) :
    Option (List SleepReminder × List SleepReminder) :=
  bedtimeLoop enabled sendOk t rs none

/-- Loop body of `send_wake_reminders` (correctly nested, unlike the
bedtime task): dispatch only when the owner has notifications enabled, and
set `last_sent` to the tick's timestamp only when that send succeeded. -/
def wakeLoop (enabled : Nat → Bool) (sendOk : Nat → Bool) (t : Tick) :
    List SleepReminder → List SleepReminder × List SleepReminder
  | [] => ([], [])
  | r :: rs =>
    let rest := wakeLoop enabled sendOk t rs
    if reminderMatches r ReminderType.wake t then
      if enabled r.user then
        if sendOk r.id then
          ({ r with last_sent := some t.ts } :: rest.1, r :: rest.2)
        else (r :: rest.1, r :: rest.2)
      else (r :: rest.1, rest.2)
    else (r :: rest.1, rest.2)

/-- `tracker/tasks.py` `send_wake_reminders`. -/
def send_wake_reminders (enabled : Nat → Bool) (sendOk : Nat → Bool) (t : Tick)
    (rs : List SleepReminder) : List SleepReminder × List SleepReminder :=
  wakeLoop enabled sendOk t rs

/-- Does user `u` have a logged session whose sleep date is `d`
(`SleepSession.objects.filter(user=..., sleep_time__date=yesterday).exists()`)? -/
def userLoggedOn (sessions : List SleepSession) (u : Nat) (d : Int) : Bool :=
  sessions.any (fun s => s.user == u && sleepDate s == some d)

/-- Loop body of `send_log_reminders`: like the wake task, but with the
secondary due-check — skip the dispatch entirely when the owner already has
a session logged for yesterday (`t.date - 1`). -/
def logLoop (enabled : Nat → Bool) (sendOk : Nat → Bool) (t : Tick)
    (sessions : List SleepSession) :
    List SleepReminder → List SleepReminder × List SleepReminder
  | [] => ([], [])
  | r :: rs =>
    let rest := logLoop enabled sendOk t sessions rs
    if reminderMatches r ReminderType.log t then
      if enabled r.user then
        if !userLoggedOn sessions r.user (t.date - 1) then
          if sendOk r.id then
            ({ r with last_sent := some t.ts } :: rest.1, r :: rest.2)
          else (r :: rest.1, r :: rest.2)
        else (r :: rest.1, rest.2)
      else (r :: rest.1, rest.2)
    else (r :: rest.1, rest.2)

/-- `tracker/tasks.py` `send_log_reminders`. -/
def send_log_reminders (enabled : Nat → Bool) (sendOk : Nat → Bool) (t : Tick)
    (sessions : List SleepSession) (rs : List SleepReminder) :
    List SleepReminder × List SleepReminder :=
  logLoop enabled sendOk t sessions rs

/-- The remote Google calendar, an opaque external store: the ids of the
events that currently exist, and the id the next successful insert returns. -/
structure Remote where
  events : List Nat
  nextId : Nat
  deriving DecidableEq, Repr

/-- `GoogleCalendarService.create_sleep_event`: on success the remote gains
one event and the new id is returned; on failure (`HttpError` caught, or no
service) it returns `None` and the remote is unchanged. -/
def create_sleep_event (ok : Bool) (rem : Remote) : Option Nat × Remote :=
  if ok then
    (some rem.nextId, { events := rem.events ++ [rem.nextId], nextId := rem.nextId + 1 })
  else (none, rem)

/-- `GoogleCalendarService.update_sleep_event`: on success the existing
remote event is rewritten in place and its (unchanged) id returned; on
failure it returns `None`; the set of remote events never changes. -/
def update_sleep_event (ok : Bool) (eid : Nat) (rem : Remote) : Option Nat × Remote :=
  if ok && rem.events.contains eid then (some eid, rem) else (none, rem)

/-- The return value of `sync_sleep_to_calendar`, one constructor per
return statement: `notEnabled` for "Google Calendar not enabled for this
user", `updated e` for `f"Updated calendar event: {event_id}"` (note the
code formats this message whether or not the update returned `None`),
`created e` for `f"Created calendar event: {event_id}"`, and `failed` for
"Failed to sync to calendar".  (The `DoesNotExist` / generic-exception
returns are not reachable in this model.) -/
inductive SyncResult
  | notEnabled
  | updated (eid : Option Nat)
  | created (eid : Nat)
  | failed
  deriving DecidableEq, Repr

/-- Which task returns report a failure to the caller: only
"Failed to sync to calendar".  `updated e` is the success-shaped
"Updated calendar event: …" message even when `e` is `None`. -/
def isFailureSignal : SyncResult → Bool
  | SyncResult.failed => true
  | _ => false

/-- `tracker/tasks.py` `sync_sleep_to_calendar` for an existing session:
if the owner's profile has calendar sync disabled, a no-op report; if the
session is marked synced and holds an event id, update that remote event in
place (the session row is not touched, and the update's result is not
checked); otherwise create a remote event and, only on success, store the
returned id and set `synced_to_calendar=True`. -/
def sync_sleep_to_calendar (calendar_enabled : Bool) (createOk updateOk : Bool)
    (s : SleepSession) (rem : Remote) : SyncResult × SleepSession × Remote :=
  if !calendar_enabled then (SyncResult.notEnabled, s, rem)
  else
    match s.synced_to_calendar, s.calendar_event_id with
    | true, some eid =>
      let res := update_sleep_event updateOk eid rem
      (SyncResult.updated res.1, s, res.2)
    | _, _ =>
      let res := create_sleep_event createOk rem
      match res.1 with
      | some eid =>
        (SyncResult.created eid,
          { s with calendar_event_id := some eid, synced_to_calendar := true },
          res.2)
      | none => (SyncResult.failed, s, res.2)

/-- The statistics dictionary `send_weekly_reports` builds for a row
(`avg_hours`, `sessions`, `avg_quality`, `goal_achievement`; the two
nullable metrics fall back to 0). -/
structure ReportPayload where
  avg_hours : Int
  sessions : Nat
  avg_quality : Int
  goal_achievement : Int
  deriving DecidableEq, Repr

/-- Build the report payload from a statistics row. -/
def reportPayload (r : SleepStatistics) : ReportPayload :=
  { avg_hours := r.average_sleep_hours
    sessions := r.sessions_count
    avg_quality := r.average_quality.getD 0
    goal_achievement := r.goal_achievement_rate.getD 0 }

/-- Loop body of `send_weekly_reports`, written exactly as indented in the
source: the `statistics = {...}` assignment sits under
`if notification_enabled:`, but the `send_weekly_report(stat.user,
statistics)` call does not — it is attempted for every row, reading the
`statistics` left over from an earlier iteration when the current owner has
notifications disabled, and raising `NameError` (the run is `none`) if no
iteration has bound `statistics` yet.  Returns the `(user, payload)` pairs
for which a send was attempted. -/
def weeklyReportLoop (enabled : Nat → Bool) :
    List SleepStatistics → Option ReportPayload →
    Option (List (Nat × ReportPayload))
  | [], _ => some []
  | r :: rs, pay =>
    let pay' := if enabled r.user then some (reportPayload r) else pay
    match pay' with
    | none => none
    | some p =>
      match weeklyReportLoop enabled rs pay' with
      | none => none
      | some ds => some ((r.user, p) :: ds)

/-- `tracker/tasks.py` `send_weekly_reports`: select the weekly rows
anchored at the previous week's Monday
(`week_start = today - (today.weekday() + 7)`) and run the report loop with
`statistics` initially unbound. -/
def send_weekly_reports (enabled : Nat → Bool) (stats : List SleepStatistics)
    (today : Int) : Option (List (Nat × ReportPayload)) :=
  weeklyReportLoop enabled
    (stats.filter (fun r =>
      r.date == today - (weekday today + 7) && r.period_type == PeriodType.weekly))
    none

/-- The rows of a statistics store matching the key `(u, d, p)`. -/
def rowsFor (store : List SleepStatistics) (u : Nat) (d : Int) (p : PeriodType) :
    List SleepStatistics :=
  store.filter (fun r => statKeyMatches r u d p)

/-- The `(user, date, period_type)` keys of a store, in row order. -/
def keysOf (store : List SleepStatistics) : List (Nat × Int × PeriodType) :=
  store.map rowKey

/-- The `unique_together = ['user', 'date', 'period_type']` constraint: no
two rows of the store share a key. -/
def UniqueKeys (store : List SleepStatistics) : Prop := (keysOf store).Nodup

/-- Row `r` carries exactly the metric values `v` (the four fields the
statistics tasks put into `defaults`). -/
def rowHasValues (r : SleepStatistics) (v : StatValues) : Prop :=
  r.total_sleep_hours = v.total ∧ r.average_sleep_hours = v.avg
    ∧ r.average_quality = v.quality ∧ r.sessions_count = v.count

/-- Every row of `new` either keeps the `goal_achievement_rate` of a row of
`old` with the same key, or is a fresh row whose rate is the model default
`None`: the store transformation never writes that field. -/
def RatePreserved (old new : List SleepStatistics) : Prop :=
  ∀ r' ∈ new,
    (∃ r ∈ old, rowKey r = rowKey r'
        ∧ r'.goal_achievement_rate = r.goal_achievement_rate)
      ∨ r'.goal_achievement_rate = none

/-- The dispatch attempts `send_weekly_reports` makes after `statistics`
has been bound to `p`: every row gets an attempt; a row whose owner has
notifications enabled rebinds the payload to its own, while a disabled
owner's row reuses the payload most recently bound by an earlier
notification-enabled owner. -/
def weeklyReportAttempts (enabled : Nat → Bool) :
    List SleepStatistics → ReportPayload → List (Nat × ReportPayload)
  | [], _ => []
  | r :: rs, p =>
    let p' := if enabled r.user then reportPayload r else p
    (r.user, p') :: weeklyReportAttempts enabled rs p'

/-- C4: for every session with both timestamps present, after every save the
stored `duration_hours` equals `(wake − sleep)` in seconds divided by 3600,
rounded to two decimal places (here in centihours); the value is recomputed
from the timestamps on each save, overriding whatever `duration_hours` held
before, so a `wake ≤ sleep` pair still yields a computed, possibly
negative, value rather than an error. -/
theorem c4_duration_recomputed_on_save (s : SleepSession) (st wt : Int)
    (hs : s.sleep_time = some st) (hw : s.wake_time = some wt) :
    (SleepSession.save s).duration_hours
        = some (roundHalfEvenFrac (100 * (wt - st)) 3600)
      ∧ ∀ d : Option Int,
        (SleepSession.save { s with duration_hours := d }).duration_hours
          = some (roundHalfEvenFrac (100 * (wt - st)) 3600) := by
  constructor
  · unfold SleepSession.save
    rw [hs, hw]
  · intro d
    unfold SleepSession.save
    rw [show ({ s with duration_hours := d } : SleepSession).sleep_time
          = some st from hs,
        show ({ s with duration_hours := d } : SleepSession).wake_time
          = some wt from hw]

/-- Witness for C4 at a concrete reversed pair: sleeping at t = 28800 s and
"waking" at t = 23400 s (wake 1.5 h before sleep) stores the negative value
−1.50 (−150 centihours), overriding the previously stored duration 99. -/
theorem c4_duration_recomputed_on_save_witness :
    (SleepSession.save
        ⟨1, some 28800, some 23400, none, some 99, false, none⟩).duration_hours
      = some (roundHalfEvenFrac (100 * (23400 - 28800)) 3600)
    ∧ roundHalfEvenFrac (100 * (23400 - 28800)) 3600 = -150 := by
  refine ⟨(c4_duration_recomputed_on_save
      ⟨1, some 28800, some 23400, none, some 99, false, none⟩
      28800 23400 rfl rfl).1, by decide⟩

/-- C2: syncing an unsynced session (no stored remote event id) with a
successful remote create yields exactly one new remote event, whose id is
recorded on the session together with `synced_to_calendar = true`; syncing
the now-synced session again takes the update path against that same stored
id — the remote event set and the stored id are unchanged, so no second
remote event is ever created for the session. -/
theorem c2_sync_creates_exactly_once (u1 c2 u2 : Bool) (s : SleepSession)
    (rem : Remote) (hid : s.calendar_event_id = none) :
    (sync_sleep_to_calendar true true u1 s rem).1 = SyncResult.created rem.nextId
    ∧ (sync_sleep_to_calendar true true u1 s rem).2.1.synced_to_calendar = true
    ∧ (sync_sleep_to_calendar true true u1 s rem).2.1.calendar_event_id
        = some rem.nextId
    ∧ (sync_sleep_to_calendar true true u1 s rem).2.2.events
        = rem.events ++ [rem.nextId]
    ∧ (sync_sleep_to_calendar true c2 u2 (sync_sleep_to_calendar true true u1 s rem).2.1
          (sync_sleep_to_calendar true true u1 s rem).2.2).2.2
        = (sync_sleep_to_calendar true true u1 s rem).2.2
    ∧ (sync_sleep_to_calendar true c2 u2 (sync_sleep_to_calendar true true u1 s rem).2.1
          (sync_sleep_to_calendar true true u1 s rem).2.2).2.1.calendar_event_id
        = some rem.nextId
    ∧ (u2 = true →
        (sync_sleep_to_calendar true c2 u2 (sync_sleep_to_calendar true true u1 s rem).2.1
            (sync_sleep_to_calendar true true u1 s rem).2.2).1
          = SyncResult.updated (some rem.nextId))
    ∧ (u2 = false →
        (sync_sleep_to_calendar true c2 u2 (sync_sleep_to_calendar true true u1 s rem).2.1
            (sync_sleep_to_calendar true true u1 s rem).2.2).1
          = SyncResult.updated none) := by
  have hmem : rem.nextId ∈ rem.events ++ [rem.nextId] := by simp
  have hfirst : sync_sleep_to_calendar true true u1 s rem
      = (SyncResult.created rem.nextId,
         { s with calendar_event_id := some rem.nextId, synced_to_calendar := true },
         { events := rem.events ++ [rem.nextId], nextId := rem.nextId + 1 }) := by
    unfold sync_sleep_to_calendar
    cases hsy : s.synced_to_calendar <;>
      simp [hid, hsy, create_sleep_event]
  rw [hfirst]
  have hcont : ({ events := rem.events ++ [rem.nextId], nextId := rem.nextId + 1 }
      : Remote).events.contains rem.nextId = true := by
    simp
  unfold sync_sleep_to_calendar
  cases u2 <;> simp [update_sleep_event, hcont]

/-- Witness for C2: a fresh session (id 3, owner 1) against a remote
calendar already holding event 40 and handing out id 41 next.  The first
sync creates event 41 and records it; the second sync (remote update
succeeding) leaves the remote event set `[40, 41]` unchanged. -/
theorem c2_sync_creates_exactly_once_witness :
    (sync_sleep_to_calendar true true true
        ⟨1, some 0, some 28800, none, some 800, false, none⟩ ⟨[40], 41⟩).1
      = SyncResult.created 41
    ∧ (sync_sleep_to_calendar true true true
        (sync_sleep_to_calendar true true true
          ⟨1, some 0, some 28800, none, some 800, false, none⟩ ⟨[40], 41⟩).2.1
        (sync_sleep_to_calendar true true true
          ⟨1, some 0, some 28800, none, some 800, false, none⟩ ⟨[40], 41⟩).2.2).2.2
      = (sync_sleep_to_calendar true true true
          ⟨1, some 0, some 28800, none, some 800, false, none⟩ ⟨[40], 41⟩).2.2 := by
  have h := c2_sync_creates_exactly_once true true true
      ⟨1, some 0, some 28800, none, some 800, false, none⟩ ⟨[40], 41⟩ rfl
  exact ⟨h.1, h.2.2.2.2.1⟩

/-- C3 (bedtime dispatch bug): the misindented `if result:` in
`send_bedtime_reminders` re-reads the previous iteration's `result`.  At a
22:00 tick with two matching active bedtime reminders — reminder 1 whose
owner (user 10) has notifications enabled and whose send succeeds, then
reminder 2 whose owner (user 20) has notifications disabled — the task
dispatches only to reminder 1, yet also stamps reminder 2's `last_sent`
with the tick's timestamp, contradicting "`last_sent` is updated only after
that reminder's own successful dispatch" (the wake task's correctly nested
loop shows the intent). -/
theorem c3_bedtime_stale_result_sets_last_sent :
    send_bedtime_reminders (fun u => u == 10) (fun _ => true) ⟨22, 0, 1000, 0⟩
        [⟨1, 10, ReminderType.bedtime, 22, 0, true, none⟩,
         ⟨2, 20, ReminderType.bedtime, 22, 0, true, none⟩]
      = some ([⟨1, 10, ReminderType.bedtime, 22, 0, true, some 1000⟩,
               ⟨2, 20, ReminderType.bedtime, 22, 0, true, some 1000⟩],
              [⟨1, 10, ReminderType.bedtime, 22, 0, true, none⟩]) := by
  decide

/-- C5 as stated is false: on the update path a remote failure is NOT
reported as a failure signal.  Concretely, for a synced session holding
event id 5 whose remote update fails, the task returns
`updated none` — rendered "Updated calendar event: None", the same
success-shaped message as a successful update — although the local session
and the remote are indeed left unchanged. -/
theorem c5_update_failure_not_signalled :
    (sync_sleep_to_calendar true true false
        ⟨7, some 0, some 28800, none, some 800, true, some 5⟩ ⟨[5], 6⟩).1
      = SyncResult.updated none
    ∧ isFailureSignal
        (sync_sleep_to_calendar true true false
          ⟨7, some 0, some 28800, none, some 800, true, some 5⟩ ⟨[5], 6⟩).1
      = false
    ∧ (sync_sleep_to_calendar true true false
          ⟨7, some 0, some 28800, none, some 800, true, some 5⟩ ⟨[5], 6⟩).2.1
      = ⟨7, some 0, some 28800, none, some 800, true, some 5⟩
    ∧ (sync_sleep_to_calendar true true false
          ⟨7, some 0, some 28800, none, some 800, true, some 5⟩ ⟨[5], 6⟩).2.2
      = ⟨[5], 6⟩ := by
  decide

/-- C5 (amended): a remote failure always leaves the local session and the
remote unchanged, so the sync is safe to invoke again later; on the create
path it is reported by the failure signal "Failed to sync to calendar", but
on the update path the task does not check the remote result and returns
the success-shaped "Updated calendar event: None" instead of a failure
signal. -/
theorem c5_remote_failure_leaves_state_unchanged (s : SleepSession) (rem : Remote)
    (u c : Bool) :
    ((s.synced_to_calendar && s.calendar_event_id.isSome) = false →
      (sync_sleep_to_calendar true false u s rem).1 = SyncResult.failed
      ∧ isFailureSignal (sync_sleep_to_calendar true false u s rem).1 = true
      ∧ (sync_sleep_to_calendar true false u s rem).2.1 = s
      ∧ (sync_sleep_to_calendar true false u s rem).2.2 = rem)
    ∧ (∀ eid : Nat, s.synced_to_calendar = true → s.calendar_event_id = some eid →
      (sync_sleep_to_calendar true c false s rem).1 = SyncResult.updated none
      ∧ (sync_sleep_to_calendar true c false s rem).2.1 = s
      ∧ (sync_sleep_to_calendar true c false s rem).2.2 = rem) := by
  constructor
  · intro hnot
    unfold sync_sleep_to_calendar
    cases hsy : s.synced_to_calendar with
    | false =>
      cases hide : s.calendar_event_id <;>
        simp [hsy, hide, create_sleep_event, isFailureSignal]
    | true =>
      rw [hsy] at hnot
      cases hide : s.calendar_event_id with
      | some eid => rw [hide] at hnot; simp at hnot
      | none => simp [hsy, hide, create_sleep_event, isFailureSignal]
  · intro eid hsy hide
    unfold sync_sleep_to_calendar
    simp [hsy, hide, update_sleep_event]

/-- Witness for C5 (amended): create-path failure on an unsynced session
(owner 1) and update-path failure on a synced session (owner 7, event 5). -/
theorem c5_remote_failure_leaves_state_unchanged_witness :
    ((sync_sleep_to_calendar true false true
        ⟨1, some 0, some 28800, none, some 800, false, none⟩ ⟨[40], 41⟩).1
      = SyncResult.failed
    ∧ (sync_sleep_to_calendar true false true
        ⟨1, some 0, some 28800, none, some 800, false, none⟩ ⟨[40], 41⟩).2.2
      = ⟨[40], 41⟩)
    ∧ (sync_sleep_to_calendar true true false
        ⟨7, some 0, some 28800, none, some 800, true, some 5⟩ ⟨[5], 6⟩).2.1
      = ⟨7, some 0, some 28800, none, some 800, true, some 5⟩ := by
  have h1 := c5_remote_failure_leaves_state_unchanged
      ⟨1, some 0, some 28800, none, some 800, false, none⟩ ⟨[40], 41⟩ true true
  have h2 := c5_remote_failure_leaves_state_unchanged
      ⟨7, some 0, some 28800, none, some 800, true, some 5⟩ ⟨[5], 6⟩ false true
  exact ⟨⟨(h1.1 (by decide)).1, (h1.1 (by decide)).2.2.2⟩,
         (h2.2 5 rfl rfl).2.1⟩

/-- C7: whenever `send_log_reminders` actually dispatches (invokes the
notification send for) a log reminder, its owner had no session logged for
the previous calendar date — equivalently, an owner with a session dated
yesterday never receives the log reminder, even at a matching tick with
notifications enabled. -/
theorem c7_log_reminder_suppressed (enabled sendOk : Nat → Bool) (t : Tick)
    (sessions : List SleepSession) (rs : List SleepReminder)
    (p : SleepReminder)
    (hp : p ∈ (send_log_reminders enabled sendOk t sessions rs).2) :
    userLoggedOn sessions p.user (t.date - 1) = false := by
  induction rs with
  | nil => cases hp
  | cons r rs ih =>
    unfold send_log_reminders at hp ih
    unfold logLoop at hp
    by_cases hm : reminderMatches r ReminderType.log t
    · rw [if_pos hm] at hp
      by_cases he : enabled r.user
      · rw [if_pos he] at hp
        by_cases hl : userLoggedOn sessions r.user (t.date - 1)
        · simp only [hl, Bool.not_true, Bool.false_eq_true, if_false] at hp
          exact ih hp
        · simp only [eq_false_of_ne_true hl, Bool.not_false, if_true] at hp
          by_cases hsend : sendOk r.id
          · rw [if_pos hsend] at hp
            rcases List.mem_cons.mp hp with hpr | hp'
            · rw [hpr]; exact eq_false_of_ne_true hl
            · exact ih hp'
          · rw [if_neg hsend] at hp
            rcases List.mem_cons.mp hp with hpr | hp'
            · rw [hpr]; exact eq_false_of_ne_true hl
            · exact ih hp'
      · rw [if_neg he] at hp
        exact ih hp
    · rw [if_neg hm] at hp
      exact ih hp

/-- Witness for C7: at the 21:00 tick on day 0, user 20 logged a session
for day −1 (yesterday) and user 30 did not; of the two matching active log
reminders only user 30's is dispatched, and applying the theorem to it
confirms its owner had not logged yesterday. -/
theorem c7_log_reminder_suppressed_witness :
    userLoggedOn [⟨20, some (-86400), some (-57600), none, some 800, false, none⟩]
        30 ((0 : Int) - 1) = false := by
  refine c7_log_reminder_suppressed (fun _ => true) (fun _ => true) ⟨21, 0, 500, 0⟩
      [⟨20, some (-86400), some (-57600), none, some 800, false, none⟩]
      [⟨1, 20, ReminderType.log, 21, 0, true, none⟩,
       ⟨2, 30, ReminderType.log, 21, 0, true, none⟩]
      ⟨2, 30, ReminderType.log, 21, 0, true, none⟩ ?_
  decide

/-! Helper lemmas about the statistics upsert. -/

theorem list_map_id_of_eq {α : Type} (l : List α) (f : α → α)
    (h : ∀ a ∈ l, f a = a) : l.map f = l := by
  induction l with
  | nil => rfl
  | cons a l ih =>
    rw [List.map_cons, h a (List.mem_cons_self a l),
        ih (fun b hb => h b (List.mem_cons_of_mem _ hb))]

theorem list_map_congr_mem {α β : Type} (l : List α) (f g : α → β)
    (h : ∀ a ∈ l, f a = g a) : l.map f = l.map g := by
  induction l with
  | nil => rfl
  | cons a l ih =>
    rw [List.map_cons, List.map_cons, h a (List.mem_cons_self a l),
        ih (fun b hb => h b (List.mem_cons_of_mem _ hb))]

theorem list_foldl_fixpoint {α β : Type} (f : α → β → α) (l : List β) (a : α)
    (h : ∀ b ∈ l, f a b = a) : l.foldl f a = a := by
  induction l with
  | nil => rfl
  | cons b l ih =>
    rw [List.foldl_cons, h b (List.mem_cons_self b l),
        ih (fun c hc => h c (List.mem_cons_of_mem _ hc))]

theorem statKeyMatches_iff {r : SleepStatistics} {u : Nat} {d : Int}
    {p : PeriodType} :
    statKeyMatches r u d p = true ↔ rowKey r = (u, d, p) := by
  simp [statKeyMatches, rowKey, Prod.ext_iff, and_assoc]

theorem applyDefaults_rowKey (r : SleepStatistics) (v : StatValues) :
    rowKey (applyDefaults r v) = rowKey r := rfl

theorem statKeyMatches_applyDefaults (r : SleepStatistics) (v : StatValues)
    (u : Nat) (d : Int) (p : PeriodType) :
    statKeyMatches (applyDefaults r v) u d p = statKeyMatches r u d p := rfl

theorem applyDefaults_values (r : SleepStatistics) (v : StatValues) :
    rowHasValues (applyDefaults r v) v := ⟨rfl, rfl, rfl, rfl⟩

theorem applyDefaults_eq_self {r : SleepStatistics} {v : StatValues}
    (h : rowHasValues r v) : applyDefaults r v = r := by
  obtain ⟨h1, h2, h3, h4⟩ := h
  cases r
  simp only [applyDefaults] at *
  simp_all

theorem mem_rowsFor {store : List SleepStatistics} {u : Nat} {d : Int}
    {p : PeriodType} {r : SleepStatistics} :
    r ∈ rowsFor store u d p ↔ r ∈ store ∧ statKeyMatches r u d p = true := by
  simp [rowsFor, List.mem_filter]

theorem rowsFor_ne_nil_iff_any {store : List SleepStatistics} {u : Nat}
    {d : Int} {p : PeriodType} :
    rowsFor store u d p ≠ [] ↔ store.any (fun r => statKeyMatches r u d p) = true := by
  constructor
  · intro h
    obtain ⟨r, hr⟩ := List.exists_mem_of_ne_nil _ h
    obtain ⟨hmem, hmatch⟩ := mem_rowsFor.mp hr
    exact List.any_eq_true.mpr ⟨r, hmem, hmatch⟩
  · intro h hnil
    obtain ⟨r, hmem, hmatch⟩ := List.any_eq_true.mp h
    have : r ∈ rowsFor store u d p := mem_rowsFor.mpr ⟨hmem, hmatch⟩
    rw [hnil] at this
    cases this

theorem updateOrCreate_key_rows (store : List SleepStatistics) (u : Nat)
    (d : Int) (p : PeriodType) (v : StatValues) :
    ∀ r' ∈ rowsFor (updateOrCreate store u d p v) u d p, rowHasValues r' v := by
  intro r' hr'
  obtain ⟨hmem, hmatch⟩ := mem_rowsFor.mp hr'
  unfold updateOrCreate at hmem
  by_cases hany : store.any (fun r => statKeyMatches r u d p) = true
  · rw [if_pos hany] at hmem
    obtain ⟨r0, hr0, heq⟩ := List.mem_map.mp hmem
    by_cases hm0 : statKeyMatches r0 u d p = true
    · rw [if_pos hm0] at heq
      rw [← heq]
      exact applyDefaults_values r0 v
    · rw [if_neg hm0] at heq
      rw [← heq] at hmatch
      exact absurd hmatch hm0
  · rw [if_neg hany] at hmem
    rcases List.mem_append.mp hmem with h | h
    · exact absurd (List.any_eq_true.mpr ⟨r', h, hmatch⟩) hany
    · rw [List.mem_singleton] at h
      rw [h]
      exact ⟨rfl, rfl, rfl, rfl⟩

theorem updateOrCreate_rowsFor_ne_nil (store : List SleepStatistics) (u : Nat)
    (d : Int) (p : PeriodType) (v : StatValues) :
    rowsFor (updateOrCreate store u d p v) u d p ≠ [] := by
  rw [rowsFor_ne_nil_iff_any]
  unfold updateOrCreate
  by_cases hany : store.any (fun r => statKeyMatches r u d p) = true
  · rw [if_pos hany]
    obtain ⟨r0, hr0, hm0⟩ := List.any_eq_true.mp hany
    refine List.any_eq_true.mpr ⟨applyDefaults r0 v, List.mem_map.mpr ⟨r0, hr0, ?_⟩, ?_⟩
    · rw [if_pos hm0]
    · rw [statKeyMatches_applyDefaults]
      exact hm0
  · rw [if_neg hany]
    refine List.any_eq_true.mpr ⟨_, List.mem_append_right _ (List.mem_singleton_self _), ?_⟩
    rw [statKeyMatches_iff]
    rfl

theorem statKeyMatches_false_of_key_ne {r : SleepStatistics} {u : Nat} {d : Int}
    {p : PeriodType} {u' : Nat} {d' : Int} {p' : PeriodType}
    (hkey : rowKey r = (u, d, p))
    (hne : ((u, d, p) : Nat × Int × PeriodType) ≠ (u', d', p')) :
    statKeyMatches r u' d' p' = false := by
  rw [← Bool.not_eq_true]
  intro hm
  exact hne (hkey ▸ statKeyMatches_iff.mp hm)

theorem filter_map_update_other {u : Nat} {d : Int} {p : PeriodType}
    {v : StatValues} {u' : Nat} {d' : Int} {p' : PeriodType}
    (hne : ((u, d, p) : Nat × Int × PeriodType) ≠ (u', d', p'))
    (store : List SleepStatistics) :
    (store.map (fun r => if statKeyMatches r u d p then applyDefaults r v else r)).filter
        (fun r => statKeyMatches r u' d' p')
      = store.filter (fun r => statKeyMatches r u' d' p') := by
  induction store with
  | nil => rfl
  | cons a l ih =>
    rw [List.map_cons, List.filter_cons, List.filter_cons]
    by_cases hm : statKeyMatches a u d p = true
    · have hkey : rowKey a = (u, d, p) := statKeyMatches_iff.mp hm
      have hno : statKeyMatches a u' d' p' = false :=
        statKeyMatches_false_of_key_ne hkey hne
      have hno2 : statKeyMatches (applyDefaults a v) u' d' p' = false := by
        rw [statKeyMatches_applyDefaults]; exact hno
      rw [if_pos hm]
      simp only [hno, hno2, Bool.false_eq_true, if_false]
      exact ih
    · rw [if_neg hm]
      by_cases hm' : statKeyMatches a u' d' p' = true
      · simp only [hm', if_true]
        rw [ih]
      · simp only [hm', Bool.false_eq_true, if_false]
        exact ih

theorem updateOrCreate_rowsFor_other (store : List SleepStatistics) (u : Nat)
    (d : Int) (p : PeriodType) (v : StatValues) (u' : Nat) (d' : Int)
    (p' : PeriodType)
    (hne : ((u, d, p) : Nat × Int × PeriodType) ≠ (u', d', p')) :
    rowsFor (updateOrCreate store u d p v) u' d' p' = rowsFor store u' d' p' := by
  unfold updateOrCreate rowsFor
  by_cases hany : store.any (fun r => statKeyMatches r u d p) = true
  · rw [if_pos hany]
    exact filter_map_update_other hne store
  · rw [if_neg hany, List.filter_append]
    have hno : statKeyMatches
        { user := u, date := d, period_type := p,
          total_sleep_hours := v.total, average_sleep_hours := v.avg,
          average_quality := v.quality, sessions_count := v.count,
          goal_achievement_rate := none } u' d' p' = false :=
      statKeyMatches_false_of_key_ne rfl hne
    simp [hno]

theorem updateOrCreate_noop (store : List SleepStatistics) (u : Nat) (d : Int)
    (p : PeriodType) (v : StatValues) (hne : rowsFor store u d p ≠ [])
    (hvals : ∀ r ∈ rowsFor store u d p, rowHasValues r v) :
    updateOrCreate store u d p v = store := by
  unfold updateOrCreate
  rw [if_pos (rowsFor_ne_nil_iff_any.mp hne)]
  apply list_map_id_of_eq
  intro r hr
  by_cases hm : statKeyMatches r u d p = true
  · rw [if_pos hm]
    exact applyDefaults_eq_self (hvals r (mem_rowsFor.mpr ⟨hr, hm⟩))
  · rw [if_neg hm]

theorem keysOf_updateOrCreate_of_any (store : List SleepStatistics) (u : Nat)
    (d : Int) (p : PeriodType) (v : StatValues)
    (h : store.any (fun r => statKeyMatches r u d p) = true) :
    keysOf (updateOrCreate store u d p v) = keysOf store := by
  unfold updateOrCreate keysOf
  rw [if_pos h, List.map_map]
  apply list_map_congr_mem
  intro r _
  by_cases hm : statKeyMatches r u d p = true
  · simp only [Function.comp_apply, if_pos hm, applyDefaults_rowKey]
  · simp only [Function.comp_apply, if_neg hm]

theorem uniqueKeys_updateOrCreate (store : List SleepStatistics) (u : Nat)
    (d : Int) (p : PeriodType) (v : StatValues) (h : UniqueKeys store) :
    UniqueKeys (updateOrCreate store u d p v) := by
  by_cases hany : store.any (fun r => statKeyMatches r u d p) = true
  · unfold UniqueKeys
    rw [keysOf_updateOrCreate_of_any store u d p v hany]
    exact h
  · unfold UniqueKeys updateOrCreate keysOf
    rw [if_neg hany, List.map_append]
    rw [List.nodup_append]
    refine ⟨h, List.nodup_singleton _, ?_⟩
    intro k hk hk'
    rw [List.map_singleton, List.mem_singleton] at hk'
    obtain ⟨r, hr, hkey⟩ := List.mem_map.mp hk
    apply hany
    refine List.any_eq_true.mpr ⟨r, hr, statKeyMatches_iff.mpr ?_⟩
    rw [hkey, hk']
    rfl

theorem rowsFor_length_le_one (store : List SleepStatistics) (u : Nat) (d : Int)
    (p : PeriodType) (h : UniqueKeys store) :
    (rowsFor store u d p).length ≤ 1 := by
  induction store with
  | nil => simp [rowsFor]
  | cons r l ih =>
    unfold UniqueKeys keysOf at h
    rw [List.map_cons, List.nodup_cons] at h
    unfold rowsFor
    rw [List.filter_cons]
    by_cases hm : statKeyMatches r u d p = true
    · have hkey : rowKey r = (u, d, p) := statKeyMatches_iff.mp hm
      have hnil : rowsFor l u d p = [] := by
        by_contra hne
        obtain ⟨r', hr'⟩ := List.exists_mem_of_ne_nil _ hne
        obtain ⟨hmem, hmatch⟩ := mem_rowsFor.mp hr'
        apply h.1
        rw [show rowKey r = rowKey r' from hkey.trans (statKeyMatches_iff.mp hmatch).symm]
        exact List.mem_map_of_mem rowKey hmem
      unfold rowsFor at hnil
      simp [hm, hnil]
    · simp only [hm, Bool.false_eq_true, if_false]
      exact ih h.2

theorem rowsFor_length_one (store : List SleepStatistics) (u : Nat) (d : Int)
    (p : PeriodType) (hU : UniqueKeys store) (hne : rowsFor store u d p ≠ []) :
    (rowsFor store u d p).length = 1 := by
  have hle := rowsFor_length_le_one store u d p hU
  have hpos : 0 < (rowsFor store u d p).length := List.length_pos.mpr hne
  omega

theorem list_isEmpty_false_of_ne_nil {α : Type} {l : List α} (h : l ≠ []) :
    l.isEmpty = false := by
  cases l with
  | nil => exact absurd rfl h
  | cons a l => rfl

theorem list_ne_nil_of_isEmpty_ne_true {α : Type} {l : List α}
    (h : ¬l.isEmpty = true) : l ≠ [] := by
  cases l with
  | nil => exact absurd rfl h
  | cons a l => exact List.cons_ne_nil a l

theorem uniqueKeys_runAggregation (users : List Nat)
    (sel : Nat → List SleepSession) (d : Int) (p : PeriodType)
    (store : List SleepStatistics) (h : UniqueKeys store) :
    UniqueKeys (runAggregation users sel d p store) := by
  induction users generalizing store with
  | nil => exact h
  | cons u us ih =>
    unfold runAggregation
    rw [List.foldl_cons]
    apply ih
    by_cases hsel : (sel u).isEmpty = true
    · rw [if_pos hsel]; exact h
    · rw [if_neg hsel]; exact uniqueKeys_updateOrCreate _ _ _ _ _ h

theorem runAggregation_rowsFor_not_mem (users : List Nat)
    (sel : Nat → List SleepSession) (d : Int) (p : PeriodType)
    (store : List SleepStatistics) (u' : Nat) (hu : u' ∉ users) :
    rowsFor (runAggregation users sel d p store) u' d p = rowsFor store u' d p := by
  induction users generalizing store with
  | nil => rfl
  | cons u us ih =>
    unfold runAggregation
    rw [List.foldl_cons]
    have hne : u ≠ u' := fun h => hu (h ▸ List.mem_cons_self u us)
    have hstep : rowsFor
        (if (sel u).isEmpty then store
         else updateOrCreate store u d p (computeStatValues (sel u))) u' d p
        = rowsFor store u' d p := by
      by_cases hsel : (sel u).isEmpty = true
      · rw [if_pos hsel]
      · rw [if_neg hsel]
        exact updateOrCreate_rowsFor_other store u d p _ u' d p
          (fun heq => hne (congrArg Prod.fst heq))
    exact (ih _ (fun h => hu (List.mem_cons_of_mem _ h))).trans hstep

theorem runAggregation_key_values (users : List Nat)
    (sel : Nat → List SleepSession) (d : Int) (p : PeriodType)
    (store : List SleepStatistics) (hnd : users.Nodup) :
    ∀ u ∈ users, sel u ≠ [] →
      rowsFor (runAggregation users sel d p store) u d p ≠ []
      ∧ ∀ r ∈ rowsFor (runAggregation users sel d p store) u d p,
          rowHasValues r (computeStatValues (sel u)) := by
  induction users generalizing store with
  | nil => intro u hu; cases hu
  | cons x us ih =>
    intro u hu hsel
    rw [List.nodup_cons] at hnd
    unfold runAggregation
    rw [List.foldl_cons]
    rcases List.mem_cons.mp hu with rfl | hu'
    · have hstep : (if (sel u).isEmpty then store
          else updateOrCreate store u d p (computeStatValues (sel u)))
          = updateOrCreate store u d p (computeStatValues (sel u)) :=
        if_neg (by rw [list_isEmpty_false_of_ne_nil hsel]; exact Bool.false_ne_true)
      rw [hstep]
      have hframe := runAggregation_rowsFor_not_mem us sel d p
        (updateOrCreate store u d p (computeStatValues (sel u))) u hnd.1
      constructor
      · show rowsFor (runAggregation us sel d p
            (updateOrCreate store u d p (computeStatValues (sel u)))) u d p ≠ []
        rw [hframe]
        exact updateOrCreate_rowsFor_ne_nil store u d p _
      · show ∀ r ∈ rowsFor (runAggregation us sel d p
            (updateOrCreate store u d p (computeStatValues (sel u)))) u d p,
            rowHasValues r (computeStatValues (sel u))
        rw [hframe]
        exact updateOrCreate_key_rows store u d p _
    · exact ih _ hnd.2 u hu' hsel

theorem runAggregation_idem (users : List Nat) (sel : Nat → List SleepSession)
    (d : Int) (p : PeriodType) (store : List SleepStatistics)
    (hnd : users.Nodup) :
    runAggregation users sel d p (runAggregation users sel d p store)
      = runAggregation users sel d p store := by
  have hprop := runAggregation_key_values users sel d p store hnd
  conv_lhs => unfold runAggregation
  apply list_foldl_fixpoint
  intro u hu
  by_cases hsel : (sel u).isEmpty = true
  · rw [if_pos hsel]
  · rw [if_neg hsel]
    have hne : sel u ≠ [] := list_ne_nil_of_isEmpty_ne_true hsel
    exact updateOrCreate_noop _ u d p _ (hprop u hu hne).1 (hprop u hu hne).2

theorem ratePreserved_refl (s : List SleepStatistics) : RatePreserved s s :=
  fun r hr => Or.inl ⟨r, hr, rfl, rfl⟩

theorem ratePreserved_trans {a b c : List SleepStatistics}
    (hab : RatePreserved a b) (hbc : RatePreserved b c) : RatePreserved a c := by
  intro r'' hr''
  rcases hbc r'' hr'' with ⟨r', hr', hkey, hrate⟩ | hnone
  · rcases hab r' hr' with ⟨r, hr, hkey', hrate'⟩ | hnone'
    · exact Or.inl ⟨r, hr, hkey'.trans hkey, hrate.trans hrate'⟩
    · exact Or.inr (hrate.trans hnone')
  · exact Or.inr hnone

theorem ratePreserved_updateOrCreate (store : List SleepStatistics) (u : Nat)
    (d : Int) (p : PeriodType) (v : StatValues) :
    RatePreserved store (updateOrCreate store u d p v) := by
  intro r' hr'
  unfold updateOrCreate at hr'
  by_cases hany : store.any (fun r => statKeyMatches r u d p) = true
  · rw [if_pos hany] at hr'
    obtain ⟨r0, hr0, heq⟩ := List.mem_map.mp hr'
    by_cases hm : statKeyMatches r0 u d p = true
    · rw [if_pos hm] at heq
      refine Or.inl ⟨r0, hr0, ?_, ?_⟩
      · rw [← heq, applyDefaults_rowKey]
      · rw [← heq]
        rfl
    · rw [if_neg hm] at heq
      exact Or.inl ⟨r0, hr0, by rw [heq], by rw [heq]⟩
  · rw [if_neg hany] at hr'
    rcases List.mem_append.mp hr' with h | h
    · exact Or.inl ⟨r', h, rfl, rfl⟩
    · rw [List.mem_singleton] at h
      exact Or.inr (by rw [h])

theorem ratePreserved_runAggregation (users : List Nat)
    (sel : Nat → List SleepSession) (d : Int) (p : PeriodType)
    (store : List SleepStatistics) :
    RatePreserved store (runAggregation users sel d p store) := by
  induction users generalizing store with
  | nil => exact ratePreserved_refl store
  | cons u us ih =>
    unfold runAggregation
    rw [List.foldl_cons]
    refine ratePreserved_trans ?_ (ih _)
    by_cases hsel : (sel u).isEmpty = true
    · rw [if_pos hsel]; exact ratePreserved_refl store
    · rw [if_neg hsel]; exact ratePreserved_updateOrCreate store u d p _

/-- C1: for every owner and day, `calculate_daily_statistics` upserts into a
uniquely-keyed store and is idempotent: the uniqueness invariant (at most
one row per (owner, date, period kind)) is preserved, running the task a
second time over the same session data returns the store of the first run
unchanged (so both runs agree on every value), and every owner with a
session dated yesterday ends up with exactly one row keyed
(owner, yesterday, 'daily'). -/
theorem c1_daily_statistics_idempotent (allUsers : List Nat)
    (sessions : List SleepSession) (today : Int) (store : List SleepStatistics)
    (hU : UniqueKeys store) :
    UniqueKeys (calculate_daily_statistics allUsers sessions today store)
    ∧ calculate_daily_statistics allUsers sessions today
        (calculate_daily_statistics allUsers sessions today store)
      = calculate_daily_statistics allUsers sessions today store
    ∧ ∀ u ∈ allUsers, sessionsForUserOnDate sessions u (today - 1) ≠ [] →
        (rowsFor (calculate_daily_statistics allUsers sessions today store) u
          (today - 1) PeriodType.daily).length = 1 := by
  unfold calculate_daily_statistics
  have hnd : (usersWithSessionOn allUsers sessions (today - 1)).Nodup := by
    unfold usersWithSessionOn
    exact List.nodup_dedup _
  refine ⟨uniqueKeys_runAggregation _ _ _ _ _ hU,
    runAggregation_idem _ _ _ _ _ hnd, ?_⟩
  intro u hu hne
  have humem : u ∈ usersWithSessionOn allUsers sessions (today - 1) := by
    unfold usersWithSessionOn
    rw [List.mem_dedup, List.mem_filter]
    refine ⟨hu, ?_⟩
    rw [list_isEmpty_false_of_ne_nil hne]
    rfl
  exact rowsFor_length_one _ _ _ _
    (uniqueKeys_runAggregation _ _ _ _ _ hU)
    (runAggregation_key_values _ _ _ _ store hnd u humem hne).1

/-- Witness for C1: one user (id 1) with one session dated day 0, run with
`today = 1` against an empty store: the result is uniquely keyed, a second
run returns it unchanged, and user 1 has exactly one daily row. -/
theorem c1_daily_statistics_idempotent_witness :
    UniqueKeys (calculate_daily_statistics [1]
      [⟨1, some 0, some 100, none, some 750, false, none⟩] 1 [])
    ∧ calculate_daily_statistics [1]
        [⟨1, some 0, some 100, none, some 750, false, none⟩] 1
        (calculate_daily_statistics [1]
          [⟨1, some 0, some 100, none, some 750, false, none⟩] 1 [])
      = calculate_daily_statistics [1]
          [⟨1, some 0, some 100, none, some 750, false, none⟩] 1 []
    ∧ (rowsFor (calculate_daily_statistics [1]
          [⟨1, some 0, some 100, none, some 750, false, none⟩] 1 []) 1
        ((1 : Int) - 1) PeriodType.daily).length = 1 := by
  have h := c1_daily_statistics_idempotent [1]
    [⟨1, some 0, some 100, none, some 750, false, none⟩] 1 []
    (by unfold UniqueKeys keysOf; simp)
  exact ⟨h.1, h.2.1, h.2.2 1 (by decide) (by decide)⟩

/-- C6: for every owner whose selection for the window is non-empty, the
upserted row holds `total_sleep_hours` equal to the sum of the selected
sessions' durations (a missing duration contributing 0),
`average_sleep_hours` equal to that total divided by the session count
(quantized to two decimal places by the column), and `sessions_count` equal
to the count — for the daily window (sessions dated yesterday) and the
weekly window (sessions dated in the Monday-anchored current week) alike. -/
theorem c6_aggregate_values (allUsers : List Nat) (sessions : List SleepSession)
    (today : Int) (store : List SleepStatistics) :
    (∀ u ∈ allUsers, sessionsForUserOnDate sessions u (today - 1) ≠ [] →
      ∀ r ∈ rowsFor (calculate_daily_statistics allUsers sessions today store) u
          (today - 1) PeriodType.daily,
        r.total_sleep_hours
            = ((sessionsForUserOnDate sessions u (today - 1)).map
                (fun s => s.duration_hours.getD 0)).sum
        ∧ r.average_sleep_hours
            = roundHalfEvenFrac
                ((sessionsForUserOnDate sessions u (today - 1)).map
                  (fun s => s.duration_hours.getD 0)).sum
                ((sessionsForUserOnDate sessions u (today - 1)).length)
        ∧ r.sessions_count = (sessionsForUserOnDate sessions u (today - 1)).length)
    ∧ (∀ u ∈ allUsers,
        sessionsForUserInRange sessions u (today - weekday today)
          (today - weekday today + 6) ≠ [] →
      ∀ r ∈ rowsFor (calculate_weekly_statistics allUsers sessions today store) u
          (today - weekday today) PeriodType.weekly,
        r.total_sleep_hours
            = ((sessionsForUserInRange sessions u (today - weekday today)
                (today - weekday today + 6)).map
                (fun s => s.duration_hours.getD 0)).sum
        ∧ r.average_sleep_hours
            = roundHalfEvenFrac
                ((sessionsForUserInRange sessions u (today - weekday today)
                  (today - weekday today + 6)).map
                  (fun s => s.duration_hours.getD 0)).sum
                ((sessionsForUserInRange sessions u (today - weekday today)
                  (today - weekday today + 6)).length)
        ∧ r.sessions_count
            = (sessionsForUserInRange sessions u (today - weekday today)
                (today - weekday today + 6)).length) := by
  constructor
  · intro u hu hne r hr
    unfold calculate_daily_statistics at hr
    have hnd : (usersWithSessionOn allUsers sessions (today - 1)).Nodup := by
      unfold usersWithSessionOn
      exact List.nodup_dedup _
    have humem : u ∈ usersWithSessionOn allUsers sessions (today - 1) := by
      unfold usersWithSessionOn
      rw [List.mem_dedup, List.mem_filter]
      refine ⟨hu, ?_⟩
      rw [list_isEmpty_false_of_ne_nil hne]
      rfl
    have hv := (runAggregation_key_values _ _ _ _ store hnd u humem hne).2 r hr
    exact ⟨hv.1, hv.2.1, hv.2.2.2⟩
  · intro u hu hne r hr
    unfold calculate_weekly_statistics at hr
    have hnd : (usersWithSessionInRange allUsers sessions (today - weekday today)
        (today - weekday today + 6)).Nodup := by
      unfold usersWithSessionInRange
      exact List.nodup_dedup _
    have humem : u ∈ usersWithSessionInRange allUsers sessions
        (today - weekday today) (today - weekday today + 6) := by
      unfold usersWithSessionInRange
      rw [List.mem_dedup, List.mem_filter]
      refine ⟨hu, ?_⟩
      rw [list_isEmpty_false_of_ne_nil hne]
      rfl
    have hv := (runAggregation_key_values _ _ _ _ store hnd u humem hne).2 r hr
    exact ⟨hv.1, hv.2.1, hv.2.2.2⟩

/-- Witness for C6, the spec's example: one owner (user 1) with three
sessions dated day 0 of durations 7.50, 8.00 and 6.50 hours (750, 800, 650
centihours), run with `today = 1`: the produced daily row carries
total 22.00, average 7.33 (2200 / 3 rounded to two decimals = 733
centihours) and `sessions_count` 3. -/
theorem c6_aggregate_values_witness :
    ((⟨1, 0, PeriodType.daily, 2200, 733, none, 3, none⟩ : SleepStatistics).total_sleep_hours
        = ((sessionsForUserOnDate
              [⟨1, some 0, some 100, none, some 750, false, none⟩,
               ⟨1, some 200, some 300, none, some 800, false, none⟩,
               ⟨1, some 400, some 500, none, some 650, false, none⟩] 1
              ((1 : Int) - 1)).map (fun s => s.duration_hours.getD 0)).sum
      ∧ (⟨1, 0, PeriodType.daily, 2200, 733, none, 3, none⟩ : SleepStatistics).average_sleep_hours
        = roundHalfEvenFrac
            ((sessionsForUserOnDate
              [⟨1, some 0, some 100, none, some 750, false, none⟩,
               ⟨1, some 200, some 300, none, some 800, false, none⟩,
               ⟨1, some 400, some 500, none, some 650, false, none⟩] 1
              ((1 : Int) - 1)).map (fun s => s.duration_hours.getD 0)).sum
            ((sessionsForUserOnDate
              [⟨1, some 0, some 100, none, some 750, false, none⟩,
               ⟨1, some 200, some 300, none, some 800, false, none⟩,
               ⟨1, some 400, some 500, none, some 650, false, none⟩] 1
              ((1 : Int) - 1)).length)
      ∧ (⟨1, 0, PeriodType.daily, 2200, 733, none, 3, none⟩ : SleepStatistics).sessions_count
        = (sessionsForUserOnDate
              [⟨1, some 0, some 100, none, some 750, false, none⟩,
               ⟨1, some 200, some 300, none, some 800, false, none⟩,
               ⟨1, some 400, some 500, none, some 650, false, none⟩] 1
              ((1 : Int) - 1)).length)
    ∧ roundHalfEvenFrac 2200 3 = 733 := by
  refine ⟨(c6_aggregate_values [1]
      [⟨1, some 0, some 100, none, some 750, false, none⟩,
       ⟨1, some 200, some 300, none, some 800, false, none⟩,
       ⟨1, some 400, some 500, none, some 650, false, none⟩] 1 []).1 1
      (by decide) (by decide)
      ⟨1, 0, PeriodType.daily, 2200, 733, none, 3, none⟩ (by decide), by decide⟩

/-- C8: for every owner whose selection for the window is non-empty, the
upserted row's `average_quality` is the mean of the quality ratings over
exactly the selected sessions having a non-null rating (quantized to two
decimal places by the column), and is null when no selected session has a
rating — for the daily and the weekly window alike. -/
theorem c8_average_quality (allUsers : List Nat) (sessions : List SleepSession)
    (today : Int) (store : List SleepStatistics) :
    (∀ u ∈ allUsers, sessionsForUserOnDate sessions u (today - 1) ≠ [] →
      ∀ r ∈ rowsFor (calculate_daily_statistics allUsers sessions today store) u
          (today - 1) PeriodType.daily,
        r.average_quality
          = if ((sessionsForUserOnDate sessions u (today - 1)).filterMap
                (fun s => s.quality_rating)).isEmpty then none
            else some (roundHalfEvenFrac
              (100 * ((((sessionsForUserOnDate sessions u (today - 1)).filterMap
                  (fun s => s.quality_rating) : List Nat)).sum : Int))
              (((sessionsForUserOnDate sessions u (today - 1)).filterMap
                  (fun s => s.quality_rating)).length)))
    ∧ (∀ u ∈ allUsers,
        sessionsForUserInRange sessions u (today - weekday today)
          (today - weekday today + 6) ≠ [] →
      ∀ r ∈ rowsFor (calculate_weekly_statistics allUsers sessions today store) u
          (today - weekday today) PeriodType.weekly,
        r.average_quality
          = if ((sessionsForUserInRange sessions u (today - weekday today)
                (today - weekday today + 6)).filterMap
                (fun s => s.quality_rating)).isEmpty then none
            else some (roundHalfEvenFrac
              (100 * ((((sessionsForUserInRange sessions u (today - weekday today)
                  (today - weekday today + 6)).filterMap
                  (fun s => s.quality_rating) : List Nat)).sum : Int))
              (((sessionsForUserInRange sessions u (today - weekday today)
                  (today - weekday today + 6)).filterMap
                  (fun s => s.quality_rating)).length))) := by
  constructor
  · intro u hu hne r hr
    unfold calculate_daily_statistics at hr
    have hnd : (usersWithSessionOn allUsers sessions (today - 1)).Nodup := by
      unfold usersWithSessionOn
      exact List.nodup_dedup _
    have humem : u ∈ usersWithSessionOn allUsers sessions (today - 1) := by
      unfold usersWithSessionOn
      rw [List.mem_dedup, List.mem_filter]
      refine ⟨hu, ?_⟩
      rw [list_isEmpty_false_of_ne_nil hne]
      rfl
    exact ((runAggregation_key_values _ _ _ _ store hnd u humem hne).2 r hr).2.2.1
  · intro u hu hne r hr
    unfold calculate_weekly_statistics at hr
    have hnd : (usersWithSessionInRange allUsers sessions (today - weekday today)
        (today - weekday today + 6)).Nodup := by
      unfold usersWithSessionInRange
      exact List.nodup_dedup _
    have humem : u ∈ usersWithSessionInRange allUsers sessions
        (today - weekday today) (today - weekday today + 6) := by
      unfold usersWithSessionInRange
      rw [List.mem_dedup, List.mem_filter]
      refine ⟨hu, ?_⟩
      rw [list_isEmpty_false_of_ne_nil hne]
      rfl
    exact ((runAggregation_key_values _ _ _ _ store hnd u humem hne).2 r hr).2.2.1

/-- Witness for C8, the spec's example: user 1 has three sessions dated day
0, two rated 3 and 5 and one unrated; the daily row's `average_quality` is
4.00 (400 centi-units, the mean of 3 and 5), and for a second owner
(user 2) with only an unrated session the row's `average_quality` is null. -/
theorem c8_average_quality_witness :
    (⟨1, 0, PeriodType.daily, 2250, 750, some 400, 3, none⟩ : SleepStatistics).average_quality
      = some 400
    ∧ roundHalfEvenFrac (100 * ((3 + 5 : Nat) : Int)) 2 = 400
    ∧ (rowsFor (calculate_daily_statistics [1, 2]
        [⟨1, some 0, some 100, some 3, some 750, false, none⟩,
         ⟨1, some 200, some 300, some 5, some 800, false, none⟩,
         ⟨1, some 400, some 500, none, some 700, false, none⟩,
         ⟨2, some 600, some 700, none, some 600, false, none⟩] 1 []) 2
        ((1 : Int) - 1) PeriodType.daily).map (fun r => r.average_quality)
      = [none] := by
  refine ⟨((c8_average_quality [1, 2]
      [⟨1, some 0, some 100, some 3, some 750, false, none⟩,
       ⟨1, some 200, some 300, some 5, some 800, false, none⟩,
       ⟨1, some 400, some 500, none, some 700, false, none⟩,
       ⟨2, some 600, some 700, none, some 600, false, none⟩] 1 []).1 1
      (by decide) (by decide)
      ⟨1, 0, PeriodType.daily, 2250, 750, some 400, 3, none⟩ (by decide)).trans
      (by decide), by decide, by decide⟩

/-- C10: neither statistics task ever writes `goal_achievement_rate` (it is
absent from the `defaults` dictionary): every row of the resulting store
either keeps the rate of the input row with the same key (an updated or
untouched row retains its previous value) or is a freshly inserted row
whose rate is the model default null — while the four metric fields of each
processed owner's row are overwritten with the newly computed values. -/
theorem c10_goal_rate_never_written (allUsers : List Nat)
    (sessions : List SleepSession) (today : Int) (store : List SleepStatistics) :
    RatePreserved store (calculate_daily_statistics allUsers sessions today store)
    ∧ RatePreserved store (calculate_weekly_statistics allUsers sessions today store)
    ∧ (∀ u ∈ allUsers, sessionsForUserOnDate sessions u (today - 1) ≠ [] →
        ∀ r ∈ rowsFor (calculate_daily_statistics allUsers sessions today store) u
            (today - 1) PeriodType.daily,
          rowHasValues r (computeStatValues (sessionsForUserOnDate sessions u (today - 1))))
    ∧ (∀ u ∈ allUsers,
        sessionsForUserInRange sessions u (today - weekday today)
          (today - weekday today + 6) ≠ [] →
        ∀ r ∈ rowsFor (calculate_weekly_statistics allUsers sessions today store) u
            (today - weekday today) PeriodType.weekly,
          rowHasValues r (computeStatValues
            (sessionsForUserInRange sessions u (today - weekday today)
              (today - weekday today + 6)))) := by
  refine ⟨ratePreserved_runAggregation _ _ _ _ _,
    ratePreserved_runAggregation _ _ _ _ _, ?_, ?_⟩
  · intro u hu hne r hr
    unfold calculate_daily_statistics at hr
    have hnd : (usersWithSessionOn allUsers sessions (today - 1)).Nodup := by
      unfold usersWithSessionOn
      exact List.nodup_dedup _
    have humem : u ∈ usersWithSessionOn allUsers sessions (today - 1) := by
      unfold usersWithSessionOn
      rw [List.mem_dedup, List.mem_filter]
      refine ⟨hu, ?_⟩
      rw [list_isEmpty_false_of_ne_nil hne]
      rfl
    exact (runAggregation_key_values _ _ _ _ store hnd u humem hne).2 r hr
  · intro u hu hne r hr
    unfold calculate_weekly_statistics at hr
    have hnd : (usersWithSessionInRange allUsers sessions (today - weekday today)
        (today - weekday today + 6)).Nodup := by
      unfold usersWithSessionInRange
      exact List.nodup_dedup _
    have humem : u ∈ usersWithSessionInRange allUsers sessions
        (today - weekday today) (today - weekday today + 6) := by
      unfold usersWithSessionInRange
      rw [List.mem_dedup, List.mem_filter]
      refine ⟨hu, ?_⟩
      rw [list_isEmpty_false_of_ne_nil hne]
      rfl
    exact (runAggregation_key_values _ _ _ _ store hnd u humem hne).2 r hr

/-- Witness for C10: a store holding user 1's daily row for day 0 with
`goal_achievement_rate = 75`; the daily task updates that row (retaining
75 while overwriting the metrics) and inserts user 2's fresh row with rate
null; the `RatePreserved` disjunction is instantiated at user 2's inserted
row, and the whole run is evaluated. -/
theorem c10_goal_rate_never_written_witness :
    ((∃ r ∈ [(⟨1, 0, PeriodType.daily, 0, 0, none, 0, some 75⟩ : SleepStatistics)],
        rowKey r = rowKey (⟨2, 0, PeriodType.daily, 700, 700, none, 1, none⟩ : SleepStatistics)
        ∧ (⟨2, 0, PeriodType.daily, 700, 700, none, 1, none⟩ : SleepStatistics).goal_achievement_rate
            = r.goal_achievement_rate)
      ∨ (⟨2, 0, PeriodType.daily, 700, 700, none, 1, none⟩ : SleepStatistics).goal_achievement_rate
          = none)
    ∧ calculate_daily_statistics [1, 2]
        [⟨1, some 0, some 100, none, some 800, false, none⟩,
         ⟨2, some 10, some 20, none, some 700, false, none⟩] 1
        [⟨1, 0, PeriodType.daily, 0, 0, none, 0, some 75⟩]
      = [⟨1, 0, PeriodType.daily, 800, 800, none, 1, some 75⟩,
         ⟨2, 0, PeriodType.daily, 700, 700, none, 1, none⟩] := by
  refine ⟨(c10_goal_rate_never_written [1, 2]
      [⟨1, some 0, some 100, none, some 800, false, none⟩,
       ⟨2, some 10, some 20, none, some 700, false, none⟩] 1
      [⟨1, 0, PeriodType.daily, 0, 0, none, 0, some 75⟩]).1
      ⟨2, 0, PeriodType.daily, 700, 700, none, 1, none⟩ (by decide), by decide⟩

theorem weeklyLoop_some_eq_attempts (enabled : Nat → Bool)
    (rs : List SleepStatistics) (p : ReportPayload) :
    weeklyReportLoop enabled rs (some p)
      = some (weeklyReportAttempts enabled rs p) := by
  induction rs generalizing p with
  | nil => rfl
  | cons r rs ih =>
    simp only [weeklyReportLoop, weeklyReportAttempts]
    by_cases he : enabled r.user = true
    · simp only [he, if_true]
      rw [ih]
    · rw [if_neg he, if_neg he]
      rw [ih]

theorem attempts_map_fst (enabled : Nat → Bool) (rs : List SleepStatistics)
    (p : ReportPayload) :
    (weeklyReportAttempts enabled rs p).map Prod.fst
      = rs.map (fun r => r.user) := by
  induction rs generalizing p with
  | nil => rfl
  | cons r rs ih =>
    simp only [weeklyReportAttempts, List.map_cons]
    rw [ih]

theorem attempts_zip_enabled (enabled : Nat → Bool) (rs : List SleepStatistics)
    (p : ReportPayload) :
    ∀ q ∈ (weeklyReportAttempts enabled rs p).zip rs,
      enabled q.2.user = true → q.1.2 = reportPayload q.2 := by
  induction rs generalizing p with
  | nil => intro q hq; simp [weeklyReportAttempts] at hq
  | cons r rs ih =>
    intro q hq he
    simp only [weeklyReportAttempts, List.zip_cons_cons] at hq
    rcases List.mem_cons.mp hq with hq0 | hq'
    · subst hq0
      exact if_pos he
    · exact ih _ q hq' he

theorem attempts_head_payload (enabled : Nat → Bool) (rs : List SleepStatistics)
    (p : ReportPayload) :
    ∀ b ∈ ((weeklyReportAttempts enabled rs p).zip rs).head?,
      enabled b.2.user = false → b.1.2 = p := by
  cases rs with
  | nil => intro b hb; simp [weeklyReportAttempts] at hb
  | cons r2 rs2 =>
    intro b hb hdis
    simp only [weeklyReportAttempts, List.zip_cons_cons, List.head?_cons,
      Option.mem_def, Option.some.injEq] at hb
    subst hb
    exact if_neg (ne_true_of_eq_false hdis)

theorem attempts_chain (enabled : Nat → Bool) (rs : List SleepStatistics)
    (p : ReportPayload) :
    List.Chain' (fun a b => enabled b.2.user = false → b.1.2 = a.1.2)
      ((weeklyReportAttempts enabled rs p).zip rs) := by
  induction rs generalizing p with
  | nil => simp [weeklyReportAttempts]
  | cons r rs ih =>
    simp only [weeklyReportAttempts, List.zip_cons_cons]
    rw [List.chain'_cons']
    exact ⟨attempts_head_payload enabled rs _, ih _⟩

/-- C9 as stated is false at a run whose first selected row belongs to an
owner with notifications disabled: `statistics` is then still unbound when
the send is attempted, the task raises `NameError` (the run is `none`), and
no dispatch is attempted for any row — although one weekly row anchored at
the previous week's Monday (day 4, for `today = 11`) was selected. -/
theorem c9_weekly_reports_crash_on_disabled_first :
    [(⟨9, 4, PeriodType.weekly, 700, 700, none, 1, none⟩ : SleepStatistics)].filter
        (fun r => r.date == (11 : Int) - (weekday 11 + 7)
          && r.period_type == PeriodType.weekly)
      = [⟨9, 4, PeriodType.weekly, 700, 700, none, 1, none⟩]
    ∧ send_weekly_reports (fun _ => false)
        [⟨9, 4, PeriodType.weekly, 700, 700, none, 1, none⟩] 11 = none := by
  decide

/-- C9 (amended): provided the first selected row's owner has notifications
enabled (otherwise the task raises `NameError` from the unbound
`statistics` and dispatches nothing), `send_weekly_reports` attempts a
dispatch for every weekly row anchored at the previous week's Monday, in
order and including rows whose owner has notifications disabled; a row
whose owner is enabled is sent its own statistics payload, while a row
whose owner is disabled is sent the payload of the previous attempt — i.e.
whatever was last computed for an earlier, notification-enabled owner. -/
theorem c9_weekly_reports_stale_payloads (enabled : Nat → Bool)
    (stats : List SleepStatistics) (today : Int)
    (hfirst : ∀ r, (stats.filter (fun r => r.date == today - (weekday today + 7)
        && r.period_type == PeriodType.weekly)).head? = some r →
      enabled r.user = true) :
    ∃ ds, send_weekly_reports enabled stats today = some ds
      ∧ ds.map Prod.fst
          = (stats.filter (fun r => r.date == today - (weekday today + 7)
              && r.period_type == PeriodType.weekly)).map (fun r => r.user)
      ∧ (∀ q ∈ ds.zip (stats.filter (fun r => r.date == today - (weekday today + 7)
            && r.period_type == PeriodType.weekly)),
          enabled q.2.user = true → q.1.2 = reportPayload q.2)
      ∧ List.Chain' (fun a b => enabled b.2.user = false → b.1.2 = a.1.2)
          (ds.zip (stats.filter (fun r => r.date == today - (weekday today + 7)
            && r.period_type == PeriodType.weekly))) := by
  unfold send_weekly_reports
  cases hselc : stats.filter (fun r => r.date == today - (weekday today + 7)
      && r.period_type == PeriodType.weekly) with
  | nil =>
    refine ⟨[], rfl, rfl, ?_, ?_⟩
    · intro q hq; simp at hq
    · simp
  | cons r rest =>
    have he : enabled r.user = true := hfirst r (by rw [hselc]; rfl)
    refine ⟨(r.user, reportPayload r)
        :: weeklyReportAttempts enabled rest (reportPayload r), ?_, ?_, ?_, ?_⟩
    · simp only [weeklyReportLoop, he, if_true]
      rw [weeklyLoop_some_eq_attempts]
    · rw [List.map_cons, List.map_cons, attempts_map_fst]
    · rw [List.zip_cons_cons]
      intro q hq he'
      rcases List.mem_cons.mp hq with hq0 | hq'
      · subst hq0; rfl
      · exact attempts_zip_enabled enabled rest (reportPayload r) q hq' he'
    · rw [List.zip_cons_cons, List.chain'_cons']
      exact ⟨attempts_head_payload enabled rest (reportPayload r),
        attempts_chain enabled rest (reportPayload r)⟩

/-- Witness for C9 (amended): for `today = 11` two weekly rows are anchored
at day 4 — user 1 (enabled, average 7.50) first, then user 2 (disabled);
the run attempts both dispatches, and user 2 is sent user 1's payload. -/
theorem c9_weekly_reports_stale_payloads_witness :
    (∃ ds, send_weekly_reports (fun u => u == 1)
        [⟨1, 4, PeriodType.weekly, 750, 750, some 400, 1, none⟩,
         ⟨2, 4, PeriodType.weekly, 600, 600, none, 1, none⟩] 11 = some ds
      ∧ ds.map Prod.fst
          = ([(⟨1, 4, PeriodType.weekly, 750, 750, some 400, 1, none⟩ : SleepStatistics),
              ⟨2, 4, PeriodType.weekly, 600, 600, none, 1, none⟩].filter
              (fun r => r.date == (11 : Int) - (weekday 11 + 7)
                && r.period_type == PeriodType.weekly)).map (fun r => r.user)
      ∧ (∀ q ∈ ds.zip ([(⟨1, 4, PeriodType.weekly, 750, 750, some 400, 1, none⟩ : SleepStatistics),
              ⟨2, 4, PeriodType.weekly, 600, 600, none, 1, none⟩].filter
              (fun r => r.date == (11 : Int) - (weekday 11 + 7)
                && r.period_type == PeriodType.weekly)),
          (fun u => u == 1) q.2.user = true → q.1.2 = reportPayload q.2)
      ∧ List.Chain' (fun a b => (fun u => u == 1) b.2.user = false → b.1.2 = a.1.2)
          (ds.zip ([(⟨1, 4, PeriodType.weekly, 750, 750, some 400, 1, none⟩ : SleepStatistics),
              ⟨2, 4, PeriodType.weekly, 600, 600, none, 1, none⟩].filter
              (fun r => r.date == (11 : Int) - (weekday 11 + 7)
                && r.period_type == PeriodType.weekly))))
    ∧ send_weekly_reports (fun u => u == 1)
        [⟨1, 4, PeriodType.weekly, 750, 750, some 400, 1, none⟩,
         ⟨2, 4, PeriodType.weekly, 600, 600, none, 1, none⟩] 11
      = some [(1, ⟨750, 1, 400, 0⟩), (2, ⟨750, 1, 400, 0⟩)] := by
  refine ⟨c9_weekly_reports_stale_payloads (fun u => u == 1)
      [⟨1, 4, PeriodType.weekly, 750, 750, some 400, 1, none⟩,
       ⟨2, 4, PeriodType.weekly, 600, 600, none, 1, none⟩] 11 ?_, by decide⟩
  intro r hr
  rw [show ([(⟨1, 4, PeriodType.weekly, 750, 750, some 400, 1, none⟩ : SleepStatistics),
      ⟨2, 4, PeriodType.weekly, 600, 600, none, 1, none⟩].filter
      (fun r => r.date == (11 : Int) - (weekday 11 + 7)
        && r.period_type == PeriodType.weekly)).head?
      = some ⟨1, 4, PeriodType.weekly, 750, 750, some 400, 1, none⟩ from by decide] at hr
  injection hr with h
  rw [← h]
  decide

end AmbiDream
